import Mathlib

/-!
Verification of the WebSocket upgrade gateway
(packages/core/src/node/messaging/connection.ts).

The development shallowly embeds the gateway: the upgrade matcher and the
pathname extraction of the upgrade handler, the handshake open-callback
installation of handleUpgrade, the AbstractChannel adapter produced by
toIWebSocket (send, observer registration, dispose), and the liveness
monitor installed by openSocket (the per-connection body of the
setInterval probe loop and the connection handler).

Machine-level transport state is represented explicitly: a WebSocket
readyState is a Nat (CONNECTING = 0, OPEN = 1, CLOSING = 2, CLOSED = 3),
per-connection liveness is the Bool isAlive field attached to each
socket, and effects (sends, log lines, observer registrations, observer
invocations, termination) are recorded in explicit state records so
that the theorems can count them.
-/

/- ---------------------------------------------------------------------
   Requests, options and the upgrade matcher (connection.ts lines 17-21
   and 87-98).
   --------------------------------------------------------------------- -/

/-- An incoming HTTP upgrade request; url is optional as in
http.IncomingMessage, where request.url can be undefined. -/
structure IncomingMessage where
  url : Option String
deriving DecidableEq

/-- Characters of a URL string up to (excluding) the first "?" or "#",
mirroring how url.parse splits off query string and fragment when it
computes pathname. -/
def pathnameChars : List Char → List Char
  | [] => []
  | c :: cs => if c = '?' ∨ c = '#' then [] else c :: pathnameChars cs

/-- The pathname computed by url.parse(u).pathname: the part of the URL
before the query string and fragment, or none when that part is empty
(url.parse yields a null pathname then). -/
def parsePathname (u : String) : Option String :=
  if pathnameChars u.data = [] then none
  else some (String.mk (pathnameChars u.data))

/-- Line 88: request.url ? url.parse(request.url).pathname : undefined.
The guard is JS truthiness, so an absent or empty url yields undefined. -/
def requestPathname (request : IncomingMessage) : Option String :=
  match request.url with
  | some u => if u = "" then none else parsePathname u
  | none => none

/-- IServerOptions (lines 17-21), without the transport-server handle,
which is an external collaborator: the optional exact-match path and the
optional matcher predicate. -/
structure IServerOptions where
  path : Option String
  matchesFn : Option (IncomingMessage → Bool)

/-- The left disjunct of the claim condition on line 89:
options.path && pathname === options.path. JS truthiness makes an empty
path string falsy, and a null or undefined pathname is never strictly
equal to a string. -/
def pathMatches (options : IServerOptions) (request : IncomingMessage) : Bool :=
  match options.path with
  | some p => !decide (p = "") && decide (requestPathname request = some p)
  | none => false

/-- The right disjunct of the claim condition on line 89:
options.matchesFn && options.matchesFn(request). -/
def matchesOnly (options : IServerOptions) (request : IncomingMessage) : Bool :=
  match options.matchesFn with
  | some f => f request
  | none => false

/-- The full claim decision of the upgrade handler (line 89). -/
def claimsUpgrade (options : IServerOptions) (request : IncomingMessage) : Bool :=
  pathMatches options request || matchesOnly options request

/-- Result of running the upgrade handler (lines 87-98) on one upgrade
event: whether a handshake was initiated, and the request as left behind
by the handler. -/
structure UpgradeOutcome where
  handshakeInitiated : Bool
  request : IncomingMessage
deriving DecidableEq

/-- The upgrade event handler (lines 87-98) at the decision level: it
initiates a handshake exactly when the condition on line 89 claims the
request, leaves the request itself untouched, and has no throwing path
(the result is always Except.ok). -/
def upgradeHandler (options : IServerOptions) (request : IncomingMessage) :
    Except String UpgradeOutcome :=
  Except.ok { handshakeInitiated := claimsUpgrade options request, request := request }

/- ---------------------------------------------------------------------
   readyState constants of ws.
   --------------------------------------------------------------------- -/

/-- ws readyState CONNECTING. -/
def CONNECTING : Nat := 0

/-- ws readyState OPEN. -/
def OPEN : Nat := 1

/-- ws readyState CLOSING. -/
def CLOSING : Nat := 2

/-- ws readyState CLOSED. -/
def CLOSED : Nat := 3

/- ---------------------------------------------------------------------
   The handshake open-callback installation (lines 90-96).
   --------------------------------------------------------------------- -/

/-- Events the underlying socket can later emit. -/
inductive SocketEvent where
  | opened
  | message
  | errored
  | closedEv
deriving DecidableEq

/-- Number of "open" events in a socket event trace; the transport emits
at most one. -/
def countOpened : List SocketEvent → Nat
  | [] => 0
  | SocketEvent.opened :: es => countOpened es + 1
  | _ :: es => countOpened es

/-- State of the handleUpgrade callback of lines 90-96: how many times
onOpen has been invoked, and how many observers are registered on the
socket open event. -/
structure HandshakeCallbackState where
  onOpenCalls : Nat
  openListeners : Nat
deriving DecidableEq

/-- The handleUpgrade callback (lines 90-96): when the socket readyState
is already OPEN it invokes onOpen immediately; otherwise it registers an
observer on the open event that will invoke onOpen. -/
def handshakeCallback (readyState : Nat) : HandshakeCallbackState :=
  if readyState = OPEN then { onOpenCalls := 1, openListeners := 0 }
  else { onOpenCalls := 0, openListeners := 1 }

/-- Delivery of one socket event: each observer registered on the open
event invokes onOpen once when the open event fires; other events do not
touch the callback. -/
def fireEvent (st : HandshakeCallbackState) (e : SocketEvent) : HandshakeCallbackState :=
  match e with
  | SocketEvent.opened => { st with onOpenCalls := st.onOpenCalls + st.openListeners }
  | _ => st

/-- The whole claimed-upgrade life: run the handleUpgrade callback at the
given readyState, then deliver the socket event trace. -/
def runUpgrade (readyState : Nat) (events : List SocketEvent) : HandshakeCallbackState :=
  events.foldl fireEvent (handshakeCallback readyState)

/- ---------------------------------------------------------------------
   The AbstractChannel adapter toIWebSocket (lines 101-117).
   --------------------------------------------------------------------- -/

/-- Observable effects of an AbstractChannel on its connection: payloads
forwarded to webSocket.send, lines written to the console.log diagnostic
sink, events delivered to observers registered via onError, and whether
the connection was terminated. -/
structure ChannelEffects where
  transportSends : List String
  consoleLog : List String
  errorObserverEvents : List String
  closed : Bool
deriving DecidableEq

/-- The send callback of lines 103-107: error => if (error) console.log(error).
The transport reports a send failure (or success) only through this
callback. -/
def sendCallback (st : ChannelEffects) (error : Option String) : ChannelEffects :=
  match error with
  | some e => { st with consoleLog := st.consoleLog ++ [e] }
  | none => st

/-- AbstractChannel.send (line 103): forward the payload to
webSocket.send with the diagnostic callback. The transport outcome of the
send is the transportError argument; there is no throwing path, so the
result is always Except.ok. -/
def send (st : ChannelEffects) (content : String) (transportError : Option String) :
    Except String ChannelEffects :=
  Except.ok (sendCallback { st with transportSends := st.transportSends ++ [content] } transportError)

/-- State of the socket underlying an AbstractChannel: its readyState and
how many times webSocket.close() has been called on it. -/
structure WebSocketState where
  readyState : Nat
  closeCalls : Nat
deriving DecidableEq

/-- webSocket.close(): starts the closing handshake, moving readyState to
CLOSING. -/
def wsClose (s : WebSocketState) : WebSocketState :=
  { readyState := CLOSING, closeCalls := s.closeCalls + 1 }

/-- AbstractChannel.dispose (lines 111-115): close the socket only when
readyState precedes CLOSING. -/
def dispose (s : WebSocketState) : WebSocketState :=
  if s.readyState < CLOSING then wsClose s else s

/- ---------------------------------------------------------------------
   The liveness monitor installed by openSocket (lines 48-85).
   --------------------------------------------------------------------- -/

/-- ExtWebSocket (lines 48-50): a ws socket extended with the isAlive
flag, plus the effect counters needed to observe the monitor: whether the
transport was forcibly terminated, how many times the close observers
fired, how many pong observers are registered and how many pings were
sent. -/
structure ExtWebSocket where
  isAlive : Bool
  terminated : Bool
  closeObserverFires : Nat
  pongListeners : Nat
  pingsSent : Nat
deriving DecidableEq

/-- A freshly accepted connection after the connection handler of lines
52-62 ran: isAlive is set true and one pong observer is registered. -/
def newConnection : ExtWebSocket :=
  { isAlive := true
    terminated := false
    closeObserverFires := 0
    pongListeners := 1
    pingsSent := 0 }

/-- One execution of the setInterval body (lines 64-85) for a single
connection, in source order: ws.ping("ping") is sent; another pong
observer is registered by ws.on; if isAlive is false the body logs and
returns (the ws.terminate() call on line 79 is commented out), otherwise
isAlive is set false until the next pong. -/
def probeTick (c : ExtWebSocket) : ExtWebSocket :=
  let c1 : ExtWebSocket := { c with pingsSent := c.pingsSent + 1 }
  let c2 : ExtWebSocket := { c1 with pongListeners := c1.pongListeners + 1 }
  if c2.isAlive = false then c2
  else { c2 with isAlive := false }

/-- Delivery of a pong frame from the peer: every registered pong
observer sets isAlive true (lines 58-61 and 71-75), so the net effect is
isAlive := true. -/
def pongEvent (c : ExtWebSocket) : ExtWebSocket := { c with isAlive := true }

/-- One full probe cycle of a responsive connection: the tick pings it
and a pong arrives back before the next check. -/
def responsiveCycle (c : ExtWebSocket) : ExtWebSocket := pongEvent (probeTick c)

/- ---------------------------------------------------------------------
   Registration-time behavior of openSocket (lines 42-99).
   --------------------------------------------------------------------- -/

/-- Actions a call to openSocket can take at registration time. -/
inductive SetupAction where
  | createWebSocketServer
  | registerConnectionHandler
  | startIntervalTimer (periodMs : Nat) (handleKept : Bool)
  | stopIntervalTimer
  | registerUpgradeHandler
deriving DecidableEq

/-- The body of openSocket (lines 42-99) in execution order: create the
ws.Server, register the connection handler, call setInterval with a
10000 ms period discarding the returned handle, and register the upgrade
handler on the transport server. The list does not depend on the options
value. -/
def openSocketSetup (_options : IServerOptions) : List SetupAction :=
  [SetupAction.createWebSocketServer,
   SetupAction.registerConnectionHandler,
   SetupAction.startIntervalTimer 10000 false,
   SetupAction.registerUpgradeHandler]

/-- Recognizer for timer-starting setup actions. -/
def isStartTimer : SetupAction → Bool
  | SetupAction.startIntervalTimer _ _ => true
  | _ => false

/- ---------------------------------------------------------------------
   Protocol-ping mode, modelled from the spec.
   --------------------------------------------------------------------- -/

/-- Modelled from the spec: the heartbeat designs the gateway must offer
as configuration choices (spec section 4.3); the revision implementing
protocol-ping mode is not among the sources, openSocket above implements
transport-ping mode. -/
inductive HeartbeatMode where
  | transportPing
  | protocolPing
deriving DecidableEq

/-- Modelled from the spec: the textual ping sentinel of the liveness
wire format of protocol-ping mode (spec section 6). -/
def pingSentinel : String := "\x7b\"kind\":\"ping\"\x7d"

/-- Modelled from the spec: the textual pong sentinel of the liveness
wire format of protocol-ping mode (spec section 6). -/
def pongSentinel : String := "\x7b\"kind\":\"pong\"\x7d"

/-- Modelled from the spec: the protocol-ping monitor listens for the
ping sentinel and replies with the matching pong sentinel; any other
payload is an ordinary application message and produces no liveness
reply. The result is the list of liveness frames sent back for one
received message. -/
def protocolPingReply (received : String) : List String :=
  if received = pingSentinel then [pongSentinel] else []

/-- Modelled from the spec: the idle timeout of protocol-ping mode closes
a connection exactly when no message at all has been received within the
idle window. -/
def idleTimeoutCloses (idleWindowMs msSinceLastReceived : Nat) : Bool :=
  decide (idleWindowMs ≤ msSinceLastReceived)

/-- Modelled from the spec: a gateway configuration choosing a heartbeat
mode, with the idle window of protocol-ping mode. -/
structure GatewayConfig where
  mode : HeartbeatMode
  idleWindowMs : Nat
deriving DecidableEq

/-- Modelled from the spec: the protocol-ping configuration with the
recommended 60 second idle window. -/
def defaultProtocolPingConfig : GatewayConfig :=
  { mode := HeartbeatMode.protocolPing, idleWindowMs := 60000 }

/- ---------------------------------------------------------------------
   Helper lemmas.
   --------------------------------------------------------------------- -/

/-- parsePathname never yields the empty string: an empty pathname is
reported as none. -/
lemma parsePathname_ne_empty (u : String) : parsePathname u ≠ some "" := by
  unfold parsePathname
  split
  · exact fun h => Option.noConfusion h
  · intro h
    rename_i hne
    exact hne (congrArg String.data (Option.some.inj h))

/-- requestPathname never yields the empty string. -/
lemma requestPathname_ne_empty (request : IncomingMessage) :
    requestPathname request ≠ some "" := by
  unfold requestPathname
  cases request.url with
  | none => exact fun h => Option.noConfusion h
  | some u =>
    dsimp only
    split
    · exact fun h => Option.noConfusion h
    · exact parsePathname_ne_empty u

/-- pathMatches holds exactly when the registration path is set and the
request pathname equals it. -/
lemma pathMatches_eq (options : IServerOptions) (request : IncomingMessage) :
    pathMatches options request = true ↔
      ∃ p, options.path = some p ∧ requestPathname request = some p := by
  cases hp : options.path with
  | none => simp [pathMatches, hp]
  | some p =>
    constructor
    · intro h
      have h2 : (!decide (p = "") && decide (requestPathname request = some p)) = true := by
        simpa only [pathMatches, hp] using h
      exact ⟨p, rfl, of_decide_eq_true ((Bool.and_eq_true _ _).mp h2).2⟩
    · rintro ⟨q, hq, hpathq⟩
      have hqp : p = q := Option.some.inj hq
      have hpathp : requestPathname request = some p := by rw [hqp]; exact hpathq
      have hne : p ≠ "" := fun he => requestPathname_ne_empty request (by rw [he] at hpathp; exact hpathp)
      simp only [pathMatches, hp, Bool.and_eq_true]
      exact ⟨by simp [hne], decide_eq_true hpathp⟩

/-- matchesOnly holds exactly when a predicate is set and accepts the
request. -/
lemma matchesOnly_eq (options : IServerOptions) (request : IncomingMessage) :
    matchesOnly options request = true ↔
      ∃ f, options.matchesFn = some f ∧ f request = true := by
  cases hm : options.matchesFn with
  | none => simp [matchesOnly, hm]
  | some f => simp [matchesOnly, hm]

/-- matchesOnly is false when no predicate is configured. -/
lemma matchesOnly_none (options : IServerOptions) (request : IncomingMessage)
    (h : options.matchesFn = none) : matchesOnly options request = false := by
  simp [matchesOnly, h]

/-- pathMatches is false when no path is configured. -/
lemma pathMatches_none (options : IServerOptions) (request : IncomingMessage)
    (h : options.path = none) : pathMatches options request = false := by
  simp [pathMatches, h]

/-- pathMatches only looks at the request through requestPathname. -/
lemma pathMatches_congr (options : IServerOptions) {r1 r2 : IncomingMessage}
    (h : requestPathname r1 = requestPathname r2) :
    pathMatches options r1 = pathMatches options r2 := by
  cases hp : options.path with
  | none => simp [pathMatches, hp]
  | some p => simp [pathMatches, hp, h]

/-- Folding event delivery never changes the number of open observers. -/
lemma foldl_fireEvent_openListeners (events : List SocketEvent) (st : HandshakeCallbackState) :
    (events.foldl fireEvent st).openListeners = st.openListeners := by
  induction events generalizing st with
  | nil => rfl
  | cons e es ih =>
    rw [List.foldl_cons, ih]
    cases e <;> rfl

/-- Folding event delivery adds one onOpen invocation per open event and
per registered open observer. -/
lemma foldl_fireEvent_onOpenCalls (events : List SocketEvent) (st : HandshakeCallbackState) :
    (events.foldl fireEvent st).onOpenCalls =
      st.onOpenCalls + st.openListeners * countOpened events := by
  induction events generalizing st with
  | nil => simp [countOpened]
  | cons e es ih =>
    rw [List.foldl_cons, ih]
    cases e with
    | opened => simp only [fireEvent, countOpened]; ring
    | message => simp [fireEvent, countOpened]
    | errored => simp [fireEvent, countOpened]
    | closedEv => simp [fireEvent, countOpened]

/-- The probe tick never terminates a connection. -/
lemma probeTick_terminated (c : ExtWebSocket) : (probeTick c).terminated = c.terminated := by
  simp only [probeTick]
  split <;> rfl

/-- The probe tick never fires close observers. -/
lemma probeTick_closeObserverFires (c : ExtWebSocket) :
    (probeTick c).closeObserverFires = c.closeObserverFires := by
  simp only [probeTick]
  split <;> rfl

/-- The probe tick registers exactly one more pong observer. -/
lemma probeTick_pongListeners (c : ExtWebSocket) :
    (probeTick c).pongListeners = c.pongListeners + 1 := by
  simp only [probeTick]
  split <;> rfl

/-- A responsive cycle never changes the terminated flag. -/
lemma responsiveCycle_terminated (c : ExtWebSocket) :
    (responsiveCycle c).terminated = c.terminated := by
  unfold responsiveCycle pongEvent
  simpa using probeTick_terminated c

/- ---------------------------------------------------------------------
   Claims.
   --------------------------------------------------------------------- -/

/-- Claim C1 (code bug witness): a freshly accepted connection is pinged
by the first probe tick, which marks isAlive false; no pong arrives, and
at the next tick the check on line 77 sees isAlive false, yet the
connection is still not terminated and its close observers never fired,
because the ws.terminate() call on line 79 is commented out. The claim
says the monitor forcibly terminates such a connection. -/
theorem c1_unresponsive_left_open :
    (probeTick newConnection).isAlive = false
  ∧ (probeTick (probeTick newConnection)).terminated = false
  ∧ (probeTick (probeTick newConnection)).closeObserverFires = 0 := by
  decide

/-- Claim C2 (counterexample): the claim says the matcher decision is
independent of the query string for every options value; but a
configured predicate receives the full request, so with the predicate
accepting exactly the URL "/rpc?x=1", the requests "/rpc?x=1" and
"/rpc" have the same pathname yet are claimed differently. -/
theorem c2_query_dependence_counterexample :
    claimsUpgrade { path := none, matchesFn := some (fun r => decide (r.url = some "/rpc?x=1")) }
        { url := some "/rpc?x=1" } = true
  ∧ claimsUpgrade { path := none, matchesFn := some (fun r => decide (r.url = some "/rpc?x=1")) }
        { url := some "/rpc" } = false
  ∧ requestPathname { url := some "/rpc?x=1" } = requestPathname { url := some "/rpc" } := by
  exact ⟨rfl, rfl, rfl⟩

/-- Claim C2 (amended): the matcher claims R iff the registration path is
set and equals the request pathname, or the predicate is set and accepts
R; the decision is independent of query string and fragment whenever no
predicate is configured (the pathname strips them); and when neither
path nor predicate is set no request is claimed. -/
theorem c2_matcher_amended (options : IServerOptions) (request : IncomingMessage) :
    (claimsUpgrade options request = true ↔
       (∃ p, options.path = some p ∧ requestPathname request = some p) ∨
       (∃ f, options.matchesFn = some f ∧ f request = true))
  ∧ (options.matchesFn = none → ∀ request2 : IncomingMessage,
       requestPathname request = requestPathname request2 →
       claimsUpgrade options request = claimsUpgrade options request2)
  ∧ (options.path = none → options.matchesFn = none →
       claimsUpgrade options request = false) := by
  refine ⟨?_, ?_, ?_⟩
  · unfold claimsUpgrade
    rw [Bool.or_eq_true, pathMatches_eq, matchesOnly_eq]
  · intro hm request2 hpath
    unfold claimsUpgrade
    rw [pathMatches_congr options hpath, matchesOnly_none options request hm,
      matchesOnly_none options request2 hm]
  · intro hp hm
    unfold claimsUpgrade
    rw [pathMatches_none options request hp, matchesOnly_none options request hm]
    rfl

/-- Claim C2 witness: with path "/rpc" and no predicate, the requests
"/rpc?x=1" and "/rpc#frag" share a pathname and get the same decision. -/
theorem c2_matcher_amended_witness :
    claimsUpgrade { path := some "/rpc", matchesFn := none } { url := some "/rpc?x=1" } =
      claimsUpgrade { path := some "/rpc", matchesFn := none } { url := some "/rpc#frag" } :=
  (c2_matcher_amended { path := some "/rpc", matchesFn := none }
      { url := some "/rpc?x=1" }).2.1 rfl { url := some "/rpc#frag" } (by decide)

/-- Claim C3: dispose is idempotent; it closes the underlying socket only
when readyState precedes CLOSING, two disposes from such a state perform
exactly one underlying close, and a dispose on an already closing or
closed socket is the identity (the operation is total, so it raises no
error). -/
theorem c3_dispose_idempotent (s : WebSocketState) :
    dispose (dispose s) = dispose s
  ∧ (s.readyState < CLOSING → (dispose (dispose s)).closeCalls = s.closeCalls + 1)
  ∧ (¬ s.readyState < CLOSING → dispose s = s) := by
  by_cases h : s.readyState < CLOSING
  · have h1 : dispose s = wsClose s := by simp [dispose, h]
    have h2 : dispose (wsClose s) = wsClose s := by simp [dispose, wsClose, CLOSING]
    refine ⟨by rw [h1, h2], fun _ => by rw [h1, h2]; rfl, fun hn => absurd h hn⟩
  · have h1 : dispose s = s := by simp [dispose, h]
    exact ⟨by rw [h1, h1], fun hc => absurd hc h, fun _ => h1⟩

/-- Claim C3 witness: disposing an open socket twice closes it exactly
once. -/
theorem c3_dispose_idempotent_witness :
    (dispose (dispose { readyState := OPEN, closeCalls := 0 })).closeCalls = 0 + 1 :=
  (c3_dispose_idempotent { readyState := OPEN, closeCalls := 0 }).2.1 (by decide)

/-- Claim C4: send never throws (the result is always Except.ok), a
transport send error lands only in the console.log diagnostic sink, the
events delivered to onError observers are unchanged, and the connection
is not terminated by a failed send. -/
theorem c4_send_fire_and_forget (st : ChannelEffects) (content : String)
    (transportError : Option String) :
    ∃ st2 : ChannelEffects,
      send st content transportError = Except.ok st2
      ∧ st2.consoleLog = st.consoleLog ++ transportError.toList
      ∧ st2.errorObserverEvents = st.errorObserverEvents
      ∧ st2.closed = st.closed
      ∧ st2.transportSends = st.transportSends ++ [content] := by
  cases transportError with
  | none => exact ⟨_, rfl, by simp [sendCallback, Option.toList], rfl, rfl, rfl⟩
  | some e => exact ⟨_, rfl, by simp [sendCallback, Option.toList], rfl, rfl, rfl⟩

/-- Claim C5: on a claimed upgrade whose handshake completes, onOpen runs
exactly once: immediately when the socket is already OPEN; otherwise once
when the open event fires (the transport fires it at most once); and
never when the socket never opens. -/
theorem c5_onOpen_exactly_once (readyState : Nat) (events : List SocketEvent)
    (honce : countOpened events ≤ 1) :
    (readyState = OPEN → (runUpgrade readyState events).onOpenCalls = 1)
  ∧ (readyState ≠ OPEN → 1 ≤ countOpened events →
       (runUpgrade readyState events).onOpenCalls = 1)
  ∧ (readyState ≠ OPEN → countOpened events = 0 →
       (runUpgrade readyState events).onOpenCalls = 0) := by
  have hrun : (runUpgrade readyState events).onOpenCalls =
      (handshakeCallback readyState).onOpenCalls +
        (handshakeCallback readyState).openListeners * countOpened events :=
    foldl_fireEvent_onOpenCalls events (handshakeCallback readyState)
  refine ⟨?_, ?_, ?_⟩
  · intro h
    rw [hrun]
    simp [handshakeCallback, h]
  · intro h hge
    have hc : countOpened events = 1 := Nat.le_antisymm honce hge
    rw [hrun]
    simp [handshakeCallback, h, hc]
  · intro h hc
    rw [hrun]
    simp [handshakeCallback, h, hc]

/-- Claim C5 witness: a socket that is not yet open and then fires its
open event once invokes onOpen exactly once. -/
theorem c5_onOpen_exactly_once_witness :
    (runUpgrade CONNECTING [SocketEvent.opened]).onOpenCalls = 1 :=
  (c5_onOpen_exactly_once CONNECTING [SocketEvent.opened] (by decide)).2.1
    (by decide) (by decide)

/-- Claim C6 (code bug witness): the setInterval body registers another
pong observer on every tick (line 71), so after n probe cycles a
connection carries 1 + n pong observers; the observer count grows with
the number of cycles instead of staying at one for the connection
lifetime. -/
theorem c6_pong_listener_growth (n : Nat) :
    (probeTick^[n] newConnection).pongListeners = 1 + n := by
  induction n with
  | zero => rfl
  | succ m ih =>
    rw [Function.iterate_succ_apply', probeTick_pongListeners, ih]
    omega

/-- Claim C7: a connection that answers every probe with a pong before
the next check is never terminated by the monitor across N cycles for
any N at least 10. -/
theorem c7_responsive_never_terminated (N : Nat) (hN : 10 ≤ N) (c : ExtWebSocket)
    (hc : c.terminated = false) :
    ∀ k, k ≤ N → (responsiveCycle^[k] c).terminated = false := by
  intro k hk
  clear hk hN
  induction k with
  | zero => exact hc
  | succ m ih =>
    rw [Function.iterate_succ_apply', responsiveCycle_terminated]
    exact ih

/-- Claim C7 witness: a fresh responsive connection survives 10 cycles. -/
theorem c7_responsive_never_terminated_witness :
    (responsiveCycle^[10] newConnection).terminated = false :=
  c7_responsive_never_terminated 10 (by decide) newConnection rfl 10 (by decide)

/-- Claim C8 (modelled from the spec, protocol-ping mode is not in the
sources): protocol-ping mode is a configuration choice; a received ping
sentinel produces exactly one verbatim pong sentinel, any other payload
produces no liveness reply, and the idle timeout closes a connection
exactly when no message was received within the window. -/
theorem c8_protocol_ping_mode :
    defaultProtocolPingConfig.mode = HeartbeatMode.protocolPing
  ∧ protocolPingReply pingSentinel = [pongSentinel]
  ∧ (protocolPingReply pingSentinel).length = 1
  ∧ (∀ received : String, received ≠ pingSentinel → protocolPingReply received = [])
  ∧ (∀ w t : Nat, idleTimeoutCloses w t = true ↔ w ≤ t) := by
  refine ⟨rfl, ?_, ?_, ?_, ?_⟩
  · simp [protocolPingReply]
  · simp [protocolPingReply]
  · intro received h
    simp [protocolPingReply, h]
  · intro w t
    simp [idleTimeoutCloses]

/-- Claim C8 witness: an ordinary application message draws no pong. -/
theorem c8_protocol_ping_mode_witness : protocolPingReply "hello" = [] :=
  c8_protocol_ping_mode.2.2.2.1 "hello" (by decide)

/-- Claim C9: an unmatched upgrade event is left untouched, with no
handshake and no exception (the handler result is Except.ok with the
request unchanged); an absent URL gives an undefined pathname, and an
undefined pathname can never match a configured path, so the decision
falls through to the predicate alone. -/
theorem c9_unmatched_untouched (options : IServerOptions) (request : IncomingMessage) :
    (claimsUpgrade options request = false →
       upgradeHandler options request =
         Except.ok { handshakeInitiated := false, request := request })
  ∧ (request.url = none → requestPathname request = none)
  ∧ (requestPathname request = none →
       claimsUpgrade options request = matchesOnly options request) := by
  refine ⟨?_, ?_, ?_⟩
  · intro h
    simp [upgradeHandler, h]
  · intro h
    simp [requestPathname, h]
  · intro h
    unfold claimsUpgrade
    cases hp : options.path with
    | none => rw [pathMatches_none options request hp]; rw [Bool.false_or]
    | some p =>
      have : pathMatches options request = false := by
        simp [pathMatches, hp, h]
      rw [this, Bool.false_or]

/-- Claim C9 witness: a request to a path other than the configured one
is left unclaimed and unchanged. -/
theorem c9_unmatched_untouched_witness :
    upgradeHandler { path := some "/rpc", matchesFn := none } { url := some "/other" } =
      Except.ok { handshakeInitiated := false, request := { url := some "/other" } } :=
  (c9_unmatched_untouched { path := some "/rpc", matchesFn := none }
      { url := some "/other" }).1 (by decide)

/-- Claim C10: every call to openSocket starts, at registration time and
regardless of the options, exactly one interval timer, with a 10000 ms
period and a discarded handle; no setup action stops a timer; and the
timer starts before the upgrade handler is registered, hence before any
connection can exist. -/
theorem c10_monitor_unstoppable (options : IServerOptions) :
    ((openSocketSetup options).filter isStartTimer =
      [SetupAction.startIntervalTimer 10000 false])
  ∧ SetupAction.stopIntervalTimer ∉ openSocketSetup options
  ∧ ((openSocketSetup options).indexOf (SetupAction.startIntervalTimer 10000 false) <
      (openSocketSetup options).indexOf SetupAction.registerUpgradeHandler)
  ∧ (∀ options2 : IServerOptions, openSocketSetup options = openSocketSetup options2) := by
  have h : openSocketSetup options =
      [SetupAction.createWebSocketServer,
       SetupAction.registerConnectionHandler,
       SetupAction.startIntervalTimer 10000 false,
       SetupAction.registerUpgradeHandler] := rfl
  refine ⟨?_, ?_, ?_, fun _ => rfl⟩
  · rw [h]; decide
  · rw [h]; decide
  · rw [h]; decide
